import Mathlib

/-!
Shallow embedding of the perplexity-mcp-server automation core
(`src/mcp-server/src/index.ts`): the selector-strategy resolvers, the
completion poller, the answer/source extractor, the `search` facade, the
session `close`/re-`initialize` handler, the HTTP `/search` route, and the
`perplexity_pro_search` tool handler.

Browser effects are modelled by an explicit environment (`Env`): every
point where the code consults the page (selector visibility, the
completion indicator, extracted element texts, anchor elements) or where
an awaited call may throw is a field of the environment.  A thrown
exception that the code does not catch is an `Except.error`; caught
exceptions are encoded by the branch the catch takes.
-/

namespace Perplexity

/-- JavaScript `s.includes(pat)`: `pat` occurs as a contiguous substring. -/
def jsIncludes (s pat : String) : Bool :=
  decide (pat.data <:+: s.data)

/-- JavaScript `s.trim()`: strip leading and trailing whitespace. -/
def jsTrim (s : String) : String :=
  String.mk
    (((s.data.dropWhile Char.isWhitespace).reverse.dropWhile
        Char.isWhitespace).reverse)

/-- JavaScript `s.substring(0, n)`: the first `n` characters. -/
def jsSubstringTo (s : String) (n : Nat) : String :=
  String.mk (s.data.take n)

/-- JavaScript `s.startsWith(pre)`. -/
def jsStartsWith (s pre : String) : Bool :=
  pre.data.isPrefixOf s.data

/-- JavaScript `s.split('\n')` on character lists: `acc` is the current
chunk, reversed. -/
def splitNewlineAux : List Char → List Char → List (List Char)
  | [], acc => [acc.reverse]
  | c :: rest, acc =>
      if c = '\n' then acc.reverse :: splitNewlineAux rest []
      else splitNewlineAux rest (c :: acc)

/-- JavaScript `s.split('\n')`. -/
def jsSplitLines (s : String) : List String :=
  (splitNewlineAux s.data []).map String.mk

/-- JavaScript `lines.join('\n')`. -/
def jsJoinLines : List String → String
  | [] => ""
  | [l] => l
  | l :: rest => l ++ "\n" ++ jsJoinLines rest

/-- The browser session owned by `PerplexityAutomation` (`this.session`):
a context/page pair with a best-effort logged-in flag.  The context and
page handles are opaque here; an `id` distinguishes instances. -/
structure Session where
  id : Nat
  isLoggedIn : Bool
deriving DecidableEq

/-- Outcome of one `locator.isVisible({timeout})` probe: visible, not
visible, or the awaited call throws (the code catches it and moves on). -/
inductive SelProbe where
  | visible
  | hidden
  | thrown
deriving DecidableEq

/-- One entry of a selector strategy table: the selector expression and its
human-readable method label (as in `findSearchInput`). -/
structure SelectorEntry where
  selector : String
  method : String
deriving DecidableEq

/-- The ordered selector table of `findSearchInput` (index.ts lines 59-77). -/
def searchInputSelectors : List SelectorEntry :=
  [ ⟨"textarea", "textarea"⟩,
    ⟨"[contenteditable=\"true\"]", "contenteditable"⟩,
    ⟨"div[role=\"textbox\"]", "role-textbox"⟩,
    ⟨"input[type=\"text\"]", "input-text"⟩,
    ⟨"[placeholder*=\"Ask\"]", "placeholder-ask"⟩,
    ⟨"[placeholder*=\"ask\"]", "placeholder-ask-lower"⟩,
    ⟨"[placeholder*=\"question\"]", "placeholder-question"⟩,
    ⟨"[placeholder*=\"Search\"]", "placeholder-search"⟩,
    ⟨"[aria-label*=\"Ask\"]", "aria-ask"⟩,
    ⟨"[aria-label*=\"Search\"]", "aria-search"⟩,
    ⟨".ProseMirror", "prosemirror"⟩,
    ⟨"[data-testid*=\"search\"]", "testid-search"⟩,
    ⟨"[data-testid*=\"input\"]", "testid-input"⟩ ]

/-- The ordered selector table of `findSubmitButton` (index.ts lines 95-104). -/
def submitSelectors : List String :=
  [ "button[type=\"submit\"]",
    "button:has-text(\"Search\")",
    "button[aria-label*=\"Search\"]",
    "button[aria-label*=\"Send\"]",
    "button:has-text(\"Ask\")",
    "svg[class*=\"send\"]/..",
    "[data-testid*=\"submit\"]",
    "[data-testid*=\"send\"]" ]

/-- The uniform loop of both finders: try each entry in order; a probe that
reports visible wins; a hidden or throwing probe falls through to the next
entry; no entry left means `null`. -/
def firstVisible {α : Type} (probe : α → SelProbe) : List α → Option α
  | [] => none
  | e :: rest =>
      if probe e = SelProbe.visible then some e else firstVisible probe rest

/-- `findSearchInput` (index.ts lines 57-92): first visible entry of
`searchInputSelectors`, else `null`. -/
def findSearchInput (probe : SelectorEntry → SelProbe) : Option SelectorEntry :=
  firstVisible probe searchInputSelectors

/-- `findSubmitButton` (index.ts lines 94-117): first visible entry of
`submitSelectors`, else `null`. -/
def findSubmitButton (probe : String → SelProbe) : Option String :=
  firstVisible probe submitSelectors

/-- The completion-poll loop of `search` (index.ts lines 549-567):
`while (attempts < maxAttempts) { if (check()) break; wait; attempts++ }`.
`ind n` is what `isResponseComplete` reports at the `n`-th check (0-based);
`fuel` is `maxAttempts - attempts`.  Returns the number of checks performed
and whether the completion indicator was seen. -/
def pollAux (ind : Nat → Bool) (attempts : Nat) : Nat → Nat × Bool
  | 0 => (attempts, false)
  | fuel + 1 =>
      if ind attempts then (attempts + 1, true)
      else pollAux ind (attempts + 1) fuel

/-- The in-loop `waiting-N` screenshots (every 10th attempt) and the
post-loop `timeout` screenshot of `search` (index.ts lines 563-572),
computed from the poll outcome. -/
def waitingShots (polled : Nat × Bool) : List String :=
  let increments := if polled.2 then polled.1 - 1 else polled.1
  ((((List.range increments).map (fun a => a + 1)).filter
      (fun a => a % 10 == 0)).map (fun a => "waiting-" ++ toString a))
    ++ (if polled.2 then [] else ["timeout"])

/-- A DOM element as the extractor reads it: its `innerText`, its `class`
attribute (`getAttribute('class') || ''`), and whether reading it throws
(`broken`), which the code's per-stage try/catch turns into abandoning the
rest of that stage. -/
structure ExtractElem where
  text : String
  className : String
  broken : Bool
deriving DecidableEq

/-- The page as `extractAnswer` consults it: the elements each markdown
selector matches, the `main` locator's visibility probe, the direct
children of `main`, and the body's `innerText` (with a flag for the read
throwing). -/
structure ExtractPage where
  elemsOf : String → List ExtractElem
  mainProbe : SelProbe
  mainChildren : List ExtractElem
  bodyBroken : Bool
  bodyText : String

/-- The prioritized markdown-container selectors of `extractAnswer`
(index.ts lines 309-322). -/
def markdownSelectors : List String :=
  [ "[class*=\"markdown\"]",
    "[class*=\"Markdown\"]",
    ".markdown-body",
    ".markdown-content",
    ".prose",
    "[class*=\"prose\"]",
    "article .prose",
    "[data-testid*=\"answer\"]",
    "[data-testid*=\"response\"]" ]

/-- `className.includes('nav') || className.includes('header') ||
className.includes('footer')` (index.ts line 334). -/
def isNavigation (className : String) : Bool :=
  jsIncludes className "nav" || jsIncludes className "header"
    || jsIncludes className "footer"

/-- The inner element loop of extraction stage 1: return the first element
whose text is longer than 100 chars and whose class does not look like
chrome; a throwing element read aborts the whole selector (the catch moves
to the next selector). -/
def firstAcceptable : List ExtractElem → Option String
  | [] => none
  | e :: rest =>
      if e.broken then none
      else if 100 < e.text.length ∧ isNavigation e.className = false then
        some (jsTrim e.text)
      else firstAcceptable rest

/-- Extraction stage 1 (index.ts lines 324-346): try each markdown selector
in order; the first acceptable element wins. -/
def stage1Go (p : ExtractPage) : List String → Option String
  | [] => none
  | sel :: rest =>
      match firstAcceptable (p.elemsOf sel) with
      | some t => some t
      | none => stage1Go p rest

def stage1 (p : ExtractPage) : Option String :=
  stage1Go p markdownSelectors

/-- `if (text && text.length > largestText.length) largestText = text`
folded over the children of `main` (index.ts lines 353-361). -/
def largestText : List ExtractElem → String → String
  | [], acc => acc
  | c :: rest, acc =>
      if acc.length < c.text.length then largestText rest c.text
      else largestText rest acc

/-- Extraction stage 2 (index.ts lines 349-369): the largest direct child
of a visible `main`, if longer than 50 chars; any thrown read (probe or
child) abandons the stage. -/
def stage2 (p : ExtractPage) : Option String :=
  match p.mainProbe with
  | SelProbe.visible =>
      if p.mainChildren.any (fun c => c.broken) then none
      else
        let largest := largestText p.mainChildren ""
        if 50 < largest.length then some (jsTrim largest) else none
  | SelProbe.hidden => none
  | SelProbe.thrown => none

/-- Extraction stage 3 (index.ts lines 373-383): body text split into
lines, lines with trimmed length over 30 kept, first 30 of them joined. -/
def stage3 (p : ExtractPage) : Option String :=
  if p.bodyBroken then none
  else
    let lines := (jsSplitLines p.bodyText).filter (fun l => 30 < (jsTrim l).length)
    if lines.isEmpty then none
    else some (jsJoinLines (lines.take 30))

/-- `extractAnswer` (index.ts lines 302-386): the three-stage cascade;
empty string when every stage falls through. -/
def extractAnswer (p : ExtractPage) : String :=
  match stage1 p with
  | some t => t
  | none =>
      match stage2 p with
      | some t => t
      | none =>
          match stage3 p with
          | some t => t
          | none => ""

/-- An anchor element as source extraction reads it: `href` attribute,
`innerText`, and whether reading it throws (the inner catch skips it). -/
structure Link where
  href : String
  text : String
  broken : Bool
deriving DecidableEq

/-- One entry of the result's `sources` array. -/
structure Source where
  title : String
  url : String
deriving DecidableEq

/-- The push condition of the source loop (index.ts lines 591-595):
`href && text && text.trim().length > 0 && text.length < 200`, then
`!href.includes('perplexity.ai') && !sources.find(s => s.url === href)`. -/
def keepLink (acc : List Source) (l : Link) : Bool :=
  decide (0 < (jsTrim l.text).length) && decide (l.text.length < 200)
    && !(jsIncludes l.href "perplexity.ai")
    && !(acc.any (fun s => s.url == l.href))

/-- One iteration of the source loop: push
`{title: text.trim().substring(0, 100), url: href}` when kept. -/
def sourceStep (acc : List Source) (l : Link) : List Source :=
  if l.broken then acc
  else if keepLink acc l then acc ++ [⟨jsSubstringTo (jsTrim l.text) 100, l.href⟩]
  else acc

/-- The whole source loop over the scanned links. -/
def collectSources : List Link → List Source → List Source
  | [], acc => acc
  | l :: rest, acc => collectSources rest (sourceStep acc l)

/-- Source extraction (index.ts lines 584-603): the `a[href^="http"]`
locator keeps anchors whose href starts with `http`, the loop scans the
first 15 of them. -/
def extractSources (anchors : List Link) : List Source :=
  collectSources ((anchors.filter (fun a => jsStartsWith a.href "http")).take 15) []

/-- The `SearchResponse` shape (index.ts lines 26-32).  Absent optional
fields are `none`; an absent `sources` field is the empty list. -/
structure SearchResponse where
  success : Bool
  answer : Option String
  sources : List Source
  error : Option String
  debug : Option String
deriving DecidableEq

/-- The stages inside `search`'s try block at which an awaited browser call
can throw: `page.goto`, the click/clear/type interaction with the located
input, and the submit click / Enter press. -/
inductive SearchStage where
  | goto
  | interact
  | submit
deriving DecidableEq

/-- The environment a `search` call runs against: the outcome of a lazy
`initialize()` (which stage-by-stage either installs a session or throws),
at most one throwing stage inside the try block, the selector probes, the
completion indicator per check, the extraction page, and the anchors (with
a flag for `locator('a[href^="http"]').all()` itself throwing). -/
structure Env where
  initResult : Except String Session
  throwAt : Option (SearchStage × String)
  inputDom : SelectorEntry → SelProbe
  submitDom : String → SelProbe
  indicator : Nat → Bool
  extractPage : ExtractPage
  linksThrow : Bool
  links : List Link

def debugNote : String := "Screenshot saved to debug-screenshots/"

def noInputError : String :=
  "Could not find search input on page. The page may have changed or there may be a popup."

def placeholderAnswer : String := "No answer received from Perplexity"

/-- A structured failure result as built in `search`'s catch block and in
its input-not-found branch. -/
def failureResponse (msg : String) : SearchResponse :=
  { success := false, answer := none, sources := [], error := some msg,
    debug := some debugNote }

/-- The try block of `search` (index.ts lines 487-623) together with its
catch: navigate, find the input (terminal failure when absent), type and
submit (the submit step covers both the button click and the Enter press),
poll for completion, extract the answer and the sources, and build the
result.  A throw at a reached stage lands in the catch block, which takes
an `error` screenshot and returns a failure result carrying the error's
message.  The second component is the list of debug screenshots taken. -/
def searchBody (env : Env) (query : String) (mode : Option String) :
    SearchResponse × List String :=
  let _mode := mode.getD "concise"
  let _query := query
  match env.throwAt, findSearchInput env.inputDom with
  | some (SearchStage.goto, msg), _ =>
      (failureResponse msg, ["error"])
  | _, none =>
      (failureResponse noInputError, ["before-search", "no-input-found"])
  | some (SearchStage.interact, msg), some _ =>
      (failureResponse msg, ["before-search", "error"])
  | some (SearchStage.submit, msg), some _ =>
      (failureResponse msg, ["before-search", "error"])
  | none, some _ =>
      let _submitButton := findSubmitButton env.submitDom
      let polled := pollAux env.indicator 0 60
      let answer := extractAnswer env.extractPage
      let sources := if env.linksThrow then [] else extractSources env.links
      ({ success := true,
         answer := some (if answer = "" then placeholderAnswer else answer),
         sources := sources.take 10,
         error := none,
         debug := none },
       "before-search" :: (waitingShots polled ++ ["response"]))

/-- `search` (index.ts lines 475-624).  The lazy `initialize()` happens
before the try block, so when it throws the exception propagates to the
caller (`Except.error`); once a session exists the try/catch guarantees a
returned result.  Returns the session state after the call, the response,
and the screenshots taken inside the try/catch. -/
def search (st : Option Session) (env : Env) (query : String)
    (mode : Option String) :
    Except String (Option Session × SearchResponse × List String) :=
  match st with
  | some s => Except.ok (some s, searchBody env query mode)
  | none =>
      match env.initResult with
      | Except.error e => Except.error e
      | Except.ok s => Except.ok (some s, searchBody env query mode)

/-- `close` (index.ts lines 626-632): `if (this.session) {
await this.session.context.close(); this.session = null; }`.  `closeErr`
is the outcome of `context.close()`; when it throws, the assignment
`this.session = null` is never reached, so the old handle stays.  Returns
the session field afterwards and the propagated error, if any. -/
def close (st : Option Session) (closeErr : Option String) :
    Option Session × Option String :=
  match st with
  | none => (none, none)
  | some s =>
      match closeErr with
      | some e => (some s, some e)
      | none => (none, none)

/-- Outcome of the `perplexity_init` tool handler / `POST /init` route. -/
inductive InitOutcome where
  | ok (message : String)
  | err (message : String)
deriving DecidableEq

/-- The init handler (index.ts lines 756-768 and 827-838):
`await perplexity.close(); await perplexity.initialize();` with the
handler-level catch.  When `close` throws, `initialize` is never called;
when `initialize` throws, it does so before assigning the new session. -/
def initHandler (st : Option Session) (closeErr : Option String)
    (initResult : Except String Session) : Option Session × InitOutcome :=
  match close st closeErr with
  | (st2, some e) => (st2, InitOutcome.err e)
  | (_, none) =>
      match initResult with
      | Except.error e => (none, InitOutcome.err e)
      | Except.ok s => (some s, InitOutcome.ok "Session initialized")

/-- A `POST /search` request body: `query` and `mode` as the handler
destructures them; `none` models an absent (or null) field, `some ""` an
empty string — exactly the values `!query` treats as falsy for a string
field. -/
structure HttpSearchReq where
  query : Option String
  mode : Option String
deriving DecidableEq

/-- What the `POST /search` handler does with a request: reject with 400,
or invoke `perplexity.search(query, { mode })` with these arguments. -/
inductive SearchRoute where
  | rejected (status : Nat) (message : String)
  | forwarded (query : String) (mode : Option String)
deriving DecidableEq

/-- The `POST /search` handler (index.ts lines 807-824): only `!query`
short-circuits with 400; the `mode` field is forwarded to the automation
verbatim, with no validation of any kind. -/
def postSearch (req : HttpSearchReq) : SearchRoute :=
  match req.query with
  | none => SearchRoute.rejected 400 "Query is required"
  | some q =>
      if q = "" then SearchRoute.rejected 400 "Query is required"
      else SearchRoute.forwarded q req.mode

/-- The zod `focus` enum of `perplexity_pro_search` (index.ts line 734). -/
def focusValues : List String :=
  ["internet", "academic", "writing", "wolfram", "youtube", "reddit"]

/-- The `perplexity_pro_search` handler (index.ts lines 731-744): after
zod validation, prefix the query with `[focus] ` when a focus is given,
and call `perplexity.search(searchQuery, { mode: 'deep' })`.  Returns the
(query, mode) pair handed to `search`. -/
def proSearchInvocation (query : String) (focus : Option String) :
    String × String :=
  (match focus with
   | some f => "[" ++ f ++ "] " ++ query
   | none => query,
   "deep")

/-! ### Concrete instances used to exercise the theorems -/

/-- A page with no extractable content at all. -/
def emptyPage : ExtractPage :=
  { elemsOf := fun _ => [], mainProbe := SelProbe.hidden, mainChildren := [],
    bodyBroken := false, bodyText := "" }

/-- A 101-character all-whitespace `innerText`. -/
def spaces101 : String := String.mk (List.replicate 101 ' ')

def cexBodyLine : String :=
  "This body line has well over thirty characters after trimming."

/-- A page whose first markdown selector matches a 101-space container
while the body text holds a perfectly good line: stage 1 accepts the
container and returns its trimmed (empty) text without ever reaching
stage 3. -/
def cexPage : ExtractPage :=
  { elemsOf := fun sel =>
      if sel = "[class*=\"markdown\"]" then [⟨spaces101, "markdown", false⟩]
      else [],
    mainProbe := SelProbe.hidden,
    mainChildren := [],
    bodyBroken := false,
    bodyText := cexBodyLine }

/-- A page whose body text yields a stage-3 answer. -/
def bodyTextPage : ExtractPage :=
  { elemsOf := fun _ => [], mainProbe := SelProbe.hidden, mainChildren := [],
    bodyBroken := false, bodyText := cexBodyLine }

def sessionW : Session := ⟨0, true⟩

/-- An environment whose lazy initialization throws. -/
def envInitThrow : Env :=
  { initResult := Except.error "net down", throwAt := none,
    inputDom := fun _ => SelProbe.hidden, submitDom := fun _ => SelProbe.hidden,
    indicator := fun _ => false, extractPage := emptyPage,
    linksThrow := false, links := [] }

/-- An environment whose `page.goto` throws inside the try block. -/
def envGotoThrow : Env :=
  { initResult := Except.ok sessionW, throwAt := some (SearchStage.goto, "boom"),
    inputDom := fun _ => SelProbe.hidden, submitDom := fun _ => SelProbe.hidden,
    indicator := fun _ => false, extractPage := emptyPage,
    linksThrow := false, links := [] }

/-- An environment where typing into the located input throws. -/
def envInteractThrow : Env :=
  { initResult := Except.ok sessionW,
    throwAt := some (SearchStage.interact, "Timeout 30000ms exceeded"),
    inputDom := fun _ => SelProbe.visible, submitDom := fun _ => SelProbe.hidden,
    indicator := fun _ => false, extractPage := emptyPage,
    linksThrow := false, links := [] }

/-- A benign environment: input found, indicator never fires, body text
extractable, a few links on the page. -/
def envQuiet : Env :=
  { initResult := Except.ok sessionW, throwAt := none,
    inputDom := fun _ => SelProbe.visible, submitDom := fun _ => SelProbe.hidden,
    indicator := fun _ => false, extractPage := bodyTextPage,
    linksThrow := false,
    links := [⟨"https://a.com", "Alpha source", false⟩,
              ⟨"https://a.com", "Alpha again", false⟩,
              ⟨"https://www.perplexity.ai/x", "Perp link text", false⟩,
              ⟨"https://c.com", "Gamma", false⟩] }

/-- Like `envQuiet` but with nothing extractable: the facade must
substitute the placeholder answer. -/
def envEmptyAnswer : Env :=
  { initResult := Except.ok sessionW, throwAt := none,
    inputDom := fun _ => SelProbe.visible, submitDom := fun _ => SelProbe.hidden,
    indicator := fun _ => false, extractPage := emptyPage,
    linksThrow := false, links := [] }

/-- An indicator that first reports visible at the third check. -/
def indThird : Nat → Bool := fun i => i == 2

/-! ### Helper lemmas -/

theorem firstVisible_eq_get {α : Type} (probe : α → SelProbe) :
    ∀ (l : List α) (N : Nat) (hN : N < l.length),
      (∀ i, ∀ hi : i < l.length,
        ((probe (l.get ⟨i, hi⟩) = SelProbe.visible) ↔ i = N)) →
      firstVisible probe l = some (l.get ⟨N, hN⟩)
  | [], N, hN, _ => absurd hN (Nat.not_lt_zero N)
  | a :: t, N, hN, h => by
      cases N with
      | zero =>
          have ha : probe a = SelProbe.visible := (h 0 (Nat.succ_pos _)).mpr rfl
          simp [firstVisible, ha]
      | succ n =>
          have ha : ¬ probe a = SelProbe.visible := by
            intro hv
            exact Nat.succ_ne_zero n ((h 0 (Nat.succ_pos _)).mp hv).symm
          have hn : n < t.length := Nat.lt_of_succ_lt_succ hN
          have ht : ∀ i, ∀ hi : i < t.length,
              ((probe (t.get ⟨i, hi⟩) = SelProbe.visible) ↔ i = n) := by
            intro i hi
            have := h (i + 1) (Nat.succ_lt_succ hi)
            simpa using this
          simp only [firstVisible, if_neg ha]
          exact firstVisible_eq_get probe t n hn ht

theorem firstVisible_none {α : Type} (probe : α → SelProbe) :
    ∀ l : List α, (∀ e ∈ l, probe e ≠ SelProbe.visible) →
      firstVisible probe l = none
  | [], _ => rfl
  | a :: t, h => by
      simp only [firstVisible, if_neg (h a (List.mem_cons_self a t))]
      exact firstVisible_none probe t fun e he => h e (List.mem_cons_of_mem a he)

theorem pollAux_stops (ind : Nat → Bool) :
    ∀ (fuel a k : Nat), a ≤ k → k < a + fuel →
      (∀ i, a ≤ i → i < k → ind i = false) → ind k = true →
      pollAux ind a fuel = (k + 1, true) := by
  intro fuel
  induction fuel with
  | zero => intro a k hak hk _ _; omega
  | succ fuel ih =>
      intro a k hak hk hfalse htrue
      by_cases hae : a = k
      · subst hae
        simp [pollAux, htrue]
      · have halt : a < k := Nat.lt_of_le_of_ne hak hae
        have ha : ind a = false := hfalse a (Nat.le_refl a) halt
        simp only [pollAux, ha, Bool.false_eq_true, if_false]
        exact ih (a + 1) k halt (by omega)
          (fun i hi hik => hfalse i (Nat.le_of_succ_le hi) hik) htrue

theorem pollAux_exhausts (ind : Nat → Bool) :
    ∀ (fuel a : Nat), (∀ i, a ≤ i → i < a + fuel → ind i = false) →
      pollAux ind a fuel = (a + fuel, false) := by
  intro fuel
  induction fuel with
  | zero => intro a _; simp [pollAux]
  | succ fuel ih =>
      intro a h
      have ha : ind a = false := h a (Nat.le_refl a) (by omega)
      simp only [pollAux, ha, Bool.false_eq_true, if_false]
      have := ih (a + 1) (fun i hi hilt => h i (Nat.le_of_succ_le hi) (by omega))
      rw [this]
      congr 1
      omega

theorem sourceStep_eq (acc : List Source) (l : Link) :
    sourceStep acc l = acc ∨
    (sourceStep acc l = acc ++ [⟨jsSubstringTo (jsTrim l.text) 100, l.href⟩] ∧
      jsIncludes l.href "perplexity.ai" = false ∧
      ∀ s ∈ acc, s.url ≠ l.href) := by
  unfold sourceStep
  by_cases hb : l.broken = true
  · left; simp [hb]
  · by_cases hk : keepLink acc l = true
    · right
      refine ⟨by simp [hb, hk], ?_, ?_⟩
      · have := hk
        simp only [keepLink, Bool.and_eq_true, Bool.not_eq_true'] at this
        exact this.1.2
      · have := hk
        simp only [keepLink, Bool.and_eq_true, Bool.not_eq_true',
          List.any_eq_false] at this
        intro s hs
        have := this.2 s hs
        simpa using this
    · left; simp [hb, hk]

theorem collectSources_pairwise :
    ∀ (links : List Link) (acc : List Source),
      acc.Pairwise (fun a b => a.url ≠ b.url) →
      (collectSources links acc).Pairwise (fun a b => a.url ≠ b.url)
  | [], _, h => h
  | l :: rest, acc, h => by
      show (collectSources rest (sourceStep acc l)).Pairwise _
      apply collectSources_pairwise rest
      rcases sourceStep_eq acc l with heq | ⟨heq, _, hne⟩
      · rwa [heq]
      · rw [heq, List.pairwise_append]
        refine ⟨h, by simp, ?_⟩
        intro a ha b hb
        have hb2 : b = ⟨jsSubstringTo (jsTrim l.text) 100, l.href⟩ := by
          simpa using hb
        subst hb2
        exact hne a ha

theorem collectSources_mem :
    ∀ (links : List Link) (acc : List Source) (s : Source),
      s ∈ collectSources links acc →
      s ∈ acc ∨ (s.url ∈ links.map Link.href ∧
                 jsIncludes s.url "perplexity.ai" = false)
  | [], _, _, hs => Or.inl hs
  | l :: rest, acc, s, hs => by
      have hs2 : s ∈ collectSources rest (sourceStep acc l) := hs
      rcases collectSources_mem rest (sourceStep acc l) s hs2 with hmem | ⟨hurl, hinc⟩
      · rcases sourceStep_eq acc l with heq | ⟨heq, hinc, _⟩
        · rw [heq] at hmem; exact Or.inl hmem
        · rw [heq] at hmem
          rcases List.mem_append.mp hmem with hacc | hnew
          · exact Or.inl hacc
          · have : s = ⟨jsSubstringTo (jsTrim l.text) 100, l.href⟩ := by
              simpa using hnew
            subst this
            exact Or.inr ⟨by simp, hinc⟩
      · exact Or.inr ⟨by simp [hurl], hinc⟩

theorem collectSources_append :
    ∀ (links : List Link) (acc : List Source),
      ∃ t, collectSources links acc = acc ++ t ∧
           List.Sublist (t.map Source.url) (links.map Link.href)
  | [], acc => ⟨[], by simp [collectSources], List.nil_sublist _⟩
  | l :: rest, acc => by
      rcases sourceStep_eq acc l with heq | ⟨heq, _, _⟩
      · rcases collectSources_append rest (sourceStep acc l) with ⟨t, h1, h2⟩
        refine ⟨t, ?_, ?_⟩
        · show collectSources rest (sourceStep acc l) = acc ++ t
          rw [h1, heq]
        · exact h2.cons l.href
      · rcases collectSources_append rest (sourceStep acc l) with ⟨t, h1, h2⟩
        refine ⟨⟨jsSubstringTo (jsTrim l.text) 100, l.href⟩ :: t, ?_, ?_⟩
        · show collectSources rest (sourceStep acc l) = acc ++ _
          rw [h1, heq, List.append_assoc]
          rfl
        · simpa using h2.cons₂ l.href

theorem extractSources_pairwise (anchors : List Link) :
    (extractSources anchors).Pairwise (fun a b => a.url ≠ b.url) :=
  collectSources_pairwise _ [] (List.Pairwise.nil)

theorem extractSources_mem (anchors : List Link) :
    ∀ s ∈ extractSources anchors,
      jsStartsWith s.url "http" = true ∧
      jsIncludes s.url "perplexity.ai" = false := by
  intro s hs
  rcases collectSources_mem _ [] s hs with hmem | ⟨hurl, hinc⟩
  · simp at hmem
  · refine ⟨?_, hinc⟩
    rcases List.mem_map.mp hurl with ⟨a, ha, haeq⟩
    have ha2 : a ∈ anchors.filter (fun a => jsStartsWith a.href "http") := by
      exact List.take_subset 15 _ ha
    have := (List.mem_filter.mp ha2).2
    rw [← haeq]
    simpa using this

theorem extractSources_order (anchors : List Link) :
    List.Sublist ((extractSources anchors).map Source.url)
      (anchors.map Link.href) := by
  rcases collectSources_append
    ((anchors.filter (fun a => jsStartsWith a.href "http")).take 15) [] with
    ⟨t, h1, h2⟩
  have he : extractSources anchors = t := by
    simpa [extractSources] using h1
  rw [he]
  refine h2.trans (List.Sublist.map Link.href ?_)
  exact (List.take_sublist 15 _).trans (List.filter_sublist _)

theorem searchBody_sources (env : Env) (q : String) (mode : Option String) :
    (searchBody env q mode).1.sources = [] ∨
    (searchBody env q mode).1.sources = (extractSources env.links).take 10 := by
  unfold searchBody
  split
  · left; rfl
  · left; rfl
  · left; rfl
  · left; rfl
  · by_cases hl : env.linksThrow = true
    · left; simp [hl]
    · right; simp [hl]

theorem searchBody_shape (env : Env) (q : String) (mode : Option String) :
    ((searchBody env q mode).1.success = true ∧
      ((searchBody env q mode).1.answer).isSome = true ∧
      (searchBody env q mode).1.error = none) ∨
    ((searchBody env q mode).1.success = false ∧
      ((searchBody env q mode).1.error).isSome = true ∧
      (searchBody env q mode).1.answer = none) := by
  unfold searchBody
  split
  · right; simp [failureResponse]
  · right; simp [failureResponse]
  · right; simp [failureResponse]
  · right; simp [failureResponse]
  · left; simp

theorem search_ok_resp (st : Option Session) (env : Env) (q : String)
    (mode : Option String) (st2 : Option Session) (resp : SearchResponse)
    (shots : List String)
    (h : search st env q mode = Except.ok (st2, resp, shots)) :
    resp = (searchBody env q mode).1 := by
  unfold search at h
  match st, h with
  | some s, h =>
      simp only [Except.ok.injEq, Prod.mk.injEq] at h
      rcases h with ⟨_, hbody⟩
      exact congrArg Prod.fst hbody.symm
  | none, h =>
      revert h
      match henv : env.initResult with
      | Except.error e => intro h; simp at h
      | Except.ok s =>
          intro h
          simp only [Except.ok.injEq, Prod.mk.injEq] at h
          rcases h with ⟨_, hbody⟩
          exact congrArg Prod.fst hbody.symm

theorem searchBody_throw (env : Env) (q : String) (mode : Option String)
    (stage : SearchStage) (msg : String)
    (hth : env.throwAt = some (stage, msg))
    (hreach : stage = SearchStage.goto ∨
      (findSearchInput env.inputDom).isSome = true) :
    (searchBody env q mode).1 = failureResponse msg ∧
    "error" ∈ (searchBody env q mode).2 := by
  cases stage with
  | goto =>
      cases hfi : findSearchInput env.inputDom with
      | none => rw [searchBody, hth, hfi]; exact ⟨rfl, by simp⟩
      | some e => rw [searchBody, hth, hfi]; exact ⟨rfl, by simp⟩
  | interact =>
      rcases hreach with hg | hin
      · exact absurd hg (by intro hg2; cases hg2)
      · rcases Option.isSome_iff_exists.mp hin with ⟨e, he⟩
        rw [searchBody, hth, he]
        exact ⟨rfl, by simp⟩
  | submit =>
      rcases hreach with hg | hin
      · exact absurd hg (by intro hg2; cases hg2)
      · rcases Option.isSome_iff_exists.mp hin with ⟨e, he⟩
        rw [searchBody, hth, he]
        exact ⟨rfl, by simp⟩

theorem searchBody_success (env : Env) (q : String) (mode : Option String)
    (hth : env.throwAt = none)
    (hin : (findSearchInput env.inputDom).isSome = true) :
    (searchBody env q mode).1 =
      { success := true,
        answer := some (if extractAnswer env.extractPage = "" then
                          placeholderAnswer
                        else extractAnswer env.extractPage),
        sources := (if env.linksThrow then [] else extractSources env.links).take 10,
        error := none, debug := none } := by
  rcases Option.isSome_iff_exists.mp hin with ⟨e, he⟩
  rw [searchBody, hth, he]

theorem extractAnswer_stage1 (p : ExtractPage) (t : String)
    (h : stage1 p = some t) : extractAnswer p = t := by
  unfold extractAnswer
  rw [h]

theorem extractAnswer_stage2 (p : ExtractPage) (t : String)
    (h1 : stage1 p = none) (h2 : stage2 p = some t) : extractAnswer p = t := by
  unfold extractAnswer
  rw [h1, h2]

theorem extractAnswer_stage3 (p : ExtractPage) (t : String)
    (h1 : stage1 p = none) (h2 : stage2 p = none) (h3 : stage3 p = some t) :
    extractAnswer p = t := by
  unfold extractAnswer
  rw [h1, h2, h3]

/-! ### Claim theorems -/

/-- Claim C1, counterexample to the claim as stated: `search` calls the
lazy `initialize()` before entering its try block, so an error thrown
during session initialization propagates to `search`'s caller instead of
being converted into a structured failure result. -/
theorem search_init_throw_cex :
    search none envInitThrow "capital of France" none
      = Except.error "net down" := rfl

/-- Claim C1, amended: for every query and mode, when a stage that is
actually reached inside the search attempt (navigation, input
interaction, or submission) throws, `search` captures an `error`
diagnostic screenshot and returns a structured failure result carrying
the error's message; an exception thrown during lazy session
initialization, however, propagates to the caller. -/
theorem search_catches_stage_throws (st : Option Session) (env : Env)
    (q : String) (mode : Option String) (stage : SearchStage) (msg : String)
    (hth : env.throwAt = some (stage, msg))
    (hreach : stage = SearchStage.goto ∨
      (findSearchInput env.inputDom).isSome = true)
    (hinit : st.isSome = true ∨ ∃ s, env.initResult = Except.ok s) :
    ∃ st2 resp shots, search st env q mode = Except.ok (st2, resp, shots) ∧
      resp.success = false ∧ resp.error = some msg ∧
      resp.debug = some debugNote ∧ "error" ∈ shots := by
  have hb := searchBody_throw env q mode stage msg hth hreach
  have main : ∀ s0 : Session,
      ∃ st2 resp shots,
        (Except.ok (some s0, searchBody env q mode) :
            Except String (Option Session × SearchResponse × List String))
          = Except.ok (st2, resp, shots) ∧
        resp.success = false ∧ resp.error = some msg ∧
        resp.debug = some debugNote ∧ "error" ∈ shots := by
    intro s0
    refine ⟨some s0, (searchBody env q mode).1, (searchBody env q mode).2,
      rfl, ?_, ?_, ?_, hb.2⟩
    · rw [hb.1]; rfl
    · rw [hb.1]; rfl
    · rw [hb.1]; rfl
  cases st with
  | some s => exact main s
  | none =>
      rcases hinit with hs | ⟨s, hs⟩
      · simp at hs
      · rw [search, hs]
        exact main s

/-- Witness for C1 (amended) at a concrete environment whose input
interaction throws after the input was located. -/
theorem search_catches_stage_throws_witness :
    ∃ st2 resp shots,
      search (some sessionW) envInteractThrow "q" none
        = Except.ok (st2, resp, shots) ∧
      resp.success = false ∧ resp.error = some "Timeout 30000ms exceeded" ∧
      resp.debug = some debugNote ∧ "error" ∈ shots :=
  search_catches_stage_throws (some sessionW) envInteractThrow "q" none
    SearchStage.interact "Timeout 30000ms exceeded" rfl
    (Or.inr (by decide)) (Or.inl rfl)

/-- Claim C2: every result actually returned by `search` for an accepted
(non-empty) query is exactly one of a success carrying a non-null answer
or a failure carrying a non-null error. -/
theorem search_result_exactly_one (st : Option Session) (env : Env)
    (q : String) (mode : Option String) (st2 : Option Session)
    (resp : SearchResponse) (shots : List String) (_hq : q ≠ "")
    (h : search st env q mode = Except.ok (st2, resp, shots)) :
    ((resp.success = true ∧ resp.answer.isSome = true) ∨
      (resp.success = false ∧ resp.error.isSome = true)) ∧
    ¬((resp.success = true ∧ resp.answer.isSome = true) ∧
      (resp.success = false ∧ resp.error.isSome = true)) := by
  have hr := search_ok_resp st env q mode st2 resp shots h
  subst hr
  constructor
  · rcases searchBody_shape env q mode with ⟨h1, h2, _⟩ | ⟨h1, h2, _⟩
    · exact Or.inl ⟨h1, h2⟩
    · exact Or.inr ⟨h1, h2⟩
  · rintro ⟨⟨h1, _⟩, ⟨h2, _⟩⟩
    simp [h1] at h2

/-- Witness for C2 at a concrete environment whose navigation throws. -/
theorem search_result_exactly_one_witness :
    (((searchBody envGotoThrow "q" none).1.success = true ∧
        ((searchBody envGotoThrow "q" none).1.answer).isSome = true) ∨
      ((searchBody envGotoThrow "q" none).1.success = false ∧
        ((searchBody envGotoThrow "q" none).1.error).isSome = true)) ∧
    ¬(((searchBody envGotoThrow "q" none).1.success = true ∧
        ((searchBody envGotoThrow "q" none).1.answer).isSome = true) ∧
      ((searchBody envGotoThrow "q" none).1.success = false ∧
        ((searchBody envGotoThrow "q" none).1.error).isSome = true)) :=
  search_result_exactly_one (some sessionW) envGotoThrow "q" none
    (some sessionW) (searchBody envGotoThrow "q" none).1
    (searchBody envGotoThrow "q" none).2 (by decide) rfl

/-- Claim C3, counterexample to the claim as stated: when
`context.close()` throws, `close` never reaches `this.session = null`,
so the init handler leaves the prior (unusable) session in place and
never creates a new one. -/
theorem init_retains_session_cex :
    initHandler (some ⟨0, true⟩) (some "Target closed") (Except.ok ⟨1, true⟩)
        = (some ⟨0, true⟩, InitOutcome.err "Target closed") ∧
    (initHandler (some ⟨0, true⟩) (some "Target closed")
        (Except.ok ⟨1, true⟩)).1 ≠ none := by
  exact ⟨rfl, by decide⟩

/-- Claim C3, amended: the init operation nulls out the prior session
before creating a new one only when tearing down the old context
succeeds; when teardown throws, the prior session handle is retained,
no new session is created, and the error surfaces as the handler's
error outcome.  (A throwing `initialize` still leaves the session
nulled by the successful `close`.) -/
theorem init_session_lifecycle (st : Option Session) (s s2 : Session)
    (e : String) (initRes : Except String Session) :
    (close st none).1 = none
    ∧ initHandler st none (Except.ok s2)
        = (some s2, InitOutcome.ok "Session initialized")
    ∧ initHandler st none (Except.error e) = (none, InitOutcome.err e)
    ∧ initHandler (some s) (some e) initRes = (some s, InitOutcome.err e) := by
  cases st with
  | none => exact ⟨rfl, rfl, rfl, rfl⟩
  | some s0 => exact ⟨rfl, rfl, rfl, rfl⟩

/-- Claim C4: the sources list of every result `search` returns has no
two entries with the same url, has at most 10 entries, contains only
urls starting with `http`, excludes urls containing the search site's
own domain, and keeps the page's encounter order. -/
theorem search_sources_invariants (st : Option Session) (env : Env)
    (q : String) (mode : Option String) (st2 : Option Session)
    (resp : SearchResponse) (shots : List String)
    (h : search st env q mode = Except.ok (st2, resp, shots)) :
    resp.sources.length ≤ 10
    ∧ resp.sources.Pairwise (fun a b => a.url ≠ b.url)
    ∧ (∀ s ∈ resp.sources, jsStartsWith s.url "http" = true
        ∧ jsIncludes s.url "perplexity.ai" = false)
    ∧ List.Sublist (resp.sources.map Source.url) (env.links.map Link.href) := by
  have hr := search_ok_resp st env q mode st2 resp shots h
  subst hr
  rcases searchBody_sources env q mode with hs | hs <;> rw [hs]
  · refine ⟨by simp, by simp, by simp, List.nil_sublist _⟩
  · refine ⟨?_, ?_, ?_, ?_⟩
    · rw [List.length_take]
      exact min_le_left _ _
    · exact List.Pairwise.sublist (List.take_sublist 10 _)
        (extractSources_pairwise env.links)
    · intro s hs2
      exact extractSources_mem env.links s (List.take_subset 10 _ hs2)
    · exact (List.Sublist.map Source.url (List.take_sublist 10 _)).trans
        (extractSources_order env.links)

/-- Witness for C4 at a concrete environment with duplicate, same-domain
and off-scheme links. -/
theorem search_sources_invariants_witness :
    (searchBody envQuiet "q" none).1.sources.length ≤ 10
    ∧ (searchBody envQuiet "q" none).1.sources.Pairwise
        (fun a b => a.url ≠ b.url)
    ∧ (∀ s ∈ (searchBody envQuiet "q" none).1.sources,
        jsStartsWith s.url "http" = true
        ∧ jsIncludes s.url "perplexity.ai" = false)
    ∧ List.Sublist ((searchBody envQuiet "q" none).1.sources.map Source.url)
        (envQuiet.links.map Link.href) :=
  search_sources_invariants (some sessionW) envQuiet "q" none
    (some sessionW) (searchBody envQuiet "q" none).1
    (searchBody envQuiet "q" none).2 rfl

/-- Claim C5: the completion poller stops after exactly K checks when the
indicator first reports visible at check K (K below the 60-attempt cap),
performs exactly 60 checks when the indicator never reports visible, and
in the latter case `search` still proceeds to extraction and returns a
success result whenever extraction yields text. -/
theorem poll_stops_and_timeout_proceeds (ind : Nat → Bool) (K : Nat)
    (s : Session) (env : Env) (q : String) (mode : Option String) :
    (1 ≤ K → K < 60 → (∀ i, i < K - 1 → ind i = false) →
      ind (K - 1) = true → pollAux ind 0 60 = (K, true))
    ∧ ((∀ i, i < 60 → ind i = false) → pollAux ind 0 60 = (60, false))
    ∧ (env.throwAt = none → (findSearchInput env.inputDom).isSome = true →
       (∀ i, i < 60 → env.indicator i = false) →
       extractAnswer env.extractPage ≠ "" →
       ∃ st2 resp shots,
         search (some s) env q mode = Except.ok (st2, resp, shots) ∧
         resp.success = true ∧
         resp.answer = some (extractAnswer env.extractPage) ∧
         pollAux env.indicator 0 60 = (60, false)) := by
  refine ⟨?_, ?_, ?_⟩
  · intro h1 h60 hfalse htrue
    have hstep := pollAux_stops ind 60 0 (K - 1) (Nat.zero_le _) (by omega)
      (fun i _ hik => hfalse i hik) htrue
    rw [hstep]
    congr 1
    omega
  · intro hfalse
    have := pollAux_exhausts ind 60 0 (fun i _ hi => hfalse i (by omega))
    simpa using this
  · intro hth hin hfalse hext
    have hbody := searchBody_success env q mode hth hin
    refine ⟨some s, (searchBody env q mode).1, (searchBody env q mode).2,
      rfl, ?_, ?_, ?_⟩
    · rw [hbody]
    · rw [hbody]
      simp [if_neg hext]
    · have := pollAux_exhausts env.indicator 60 0
        (fun i _ hi => hfalse i (by omega))
      simpa using this

/-- Witness for C5: an indicator first visible at the third check stops
at 3; a never-visible indicator runs the full 60 checks and the search
still succeeds with the extracted body text. -/
theorem poll_stops_and_timeout_proceeds_witness :
    pollAux indThird 0 60 = (3, true)
    ∧ pollAux (fun _ => false) 0 60 = (60, false)
    ∧ (∃ st2 resp shots,
        search (some sessionW) envQuiet "q" none = Except.ok (st2, resp, shots) ∧
        resp.success = true ∧
        resp.answer = some (extractAnswer envQuiet.extractPage) ∧
        pollAux envQuiet.indicator 0 60 = (60, false)) := by
  refine ⟨?_, ?_, ?_⟩
  · exact (poll_stops_and_timeout_proceeds indThird 3 sessionW envQuiet
      "q" none).1 (by decide) (by decide) (by decide) (by decide)
  · exact (poll_stops_and_timeout_proceeds (fun _ => false) 0 sessionW envQuiet
      "q" none).2.1 (fun i _ => rfl)
  · exact (poll_stops_and_timeout_proceeds envQuiet.indicator 0 sessionW
      envQuiet "q" none).2.2 rfl rfl (fun i _ => rfl) (by decide)

/-- Claim C6: for every non-empty query with a focus value, the
`perplexity_pro_search` handler invokes the underlying search with the
query prefixed by the bracketed focus tag — so the query text contains
the literal substring `[focus] query` — and with mode `deep`. -/
theorem pro_search_focus_prefix (q f : String) (_hq : q ≠ "")
    (_hf : f ∈ focusValues) :
    (proSearchInvocation q (some f)).1 = "[" ++ f ++ "] " ++ q
    ∧ (proSearchInvocation q (some f)).2 = "deep"
    ∧ jsIncludes (proSearchInvocation q (some f)).1
        ("[" ++ f ++ "] " ++ q) = true := by
  refine ⟨rfl, rfl, ?_⟩
  simp only [proSearchInvocation, jsIncludes, decide_eq_true_eq]
  exact List.infix_refl _

/-- Witness for C6 at focus `academic` and query `quantum computing`. -/
theorem pro_search_focus_prefix_witness :
    (proSearchInvocation "quantum computing" (some "academic")).1
        = "[academic] quantum computing"
    ∧ (proSearchInvocation "quantum computing" (some "academic")).2 = "deep"
    ∧ jsIncludes (proSearchInvocation "quantum computing" (some "academic")).1
        "[academic] quantum computing" = true := by
  have h := pro_search_focus_prefix "quantum computing" "academic"
    (by decide) (by decide)
  exact h

/-- Claim C7: selector strategy resolution tries the ordered entries in
sequence and returns the first that reports visible: in a DOM where only
the Nth entry reports visible the resolver returns exactly that entry,
and it returns `null` when no entry reports visible — for both
`findSearchInput` and `findSubmitButton`. -/
theorem selector_resolution_nth (dom : SelectorEntry → SelProbe)
    (dom2 : String → SelProbe) (N M : Nat)
    (hN : N < searchInputSelectors.length)
    (hM : M < submitSelectors.length) :
    ((∀ i, ∀ hi : i < searchInputSelectors.length,
        ((dom (searchInputSelectors.get ⟨i, hi⟩) = SelProbe.visible) ↔ i = N)) →
      findSearchInput dom = some (searchInputSelectors.get ⟨N, hN⟩))
    ∧ ((∀ e ∈ searchInputSelectors, dom e ≠ SelProbe.visible) →
      findSearchInput dom = none)
    ∧ ((∀ i, ∀ hi : i < submitSelectors.length,
        ((dom2 (submitSelectors.get ⟨i, hi⟩) = SelProbe.visible) ↔ i = M)) →
      findSubmitButton dom2 = some (submitSelectors.get ⟨M, hM⟩))
    ∧ ((∀ e ∈ submitSelectors, dom2 e ≠ SelProbe.visible) →
      findSubmitButton dom2 = none) := by
  refine ⟨?_, ?_, ?_, ?_⟩
  · intro h
    exact firstVisible_eq_get dom searchInputSelectors N hN h
  · intro h
    exact firstVisible_none dom searchInputSelectors h
  · intro h
    exact firstVisible_eq_get dom2 submitSelectors M hM h
  · intro h
    exact firstVisible_none dom2 submitSelectors h

/-- Witness for C7: a DOM where only the third input selector
(`role-textbox`) and only the second submit selector report visible, and
a DOM where nothing is visible. -/
theorem selector_resolution_nth_witness :
    findSearchInput (fun e =>
        if e.method = "role-textbox" then SelProbe.visible else SelProbe.hidden)
      = some ⟨"div[role=\"textbox\"]", "role-textbox"⟩
    ∧ findSearchInput (fun _ => SelProbe.hidden) = none
    ∧ findSubmitButton (fun sel =>
        if sel = "button:has-text(\"Search\")" then SelProbe.visible
        else SelProbe.hidden) = some "button:has-text(\"Search\")"
    ∧ findSubmitButton (fun _ => SelProbe.thrown) = none := by
  refine ⟨?_, ?_, ?_, ?_⟩
  · exact (selector_resolution_nth
      (fun e => if e.method = "role-textbox" then SelProbe.visible
                else SelProbe.hidden)
      (fun _ => SelProbe.hidden) 2 1 (by decide) (by decide)).1 (by decide)
  · exact (selector_resolution_nth (fun _ => SelProbe.hidden)
      (fun _ => SelProbe.hidden) 0 0 (by decide) (by decide)).2.1 (by decide)
  · exact (selector_resolution_nth (fun _ => SelProbe.hidden)
      (fun sel => if sel = "button:has-text(\"Search\")" then SelProbe.visible
                  else SelProbe.hidden) 0 1 (by decide) (by decide)).2.2.1
      (by decide)
  · exact (selector_resolution_nth (fun _ => SelProbe.hidden)
      (fun _ => SelProbe.thrown) 0 0 (by decide) (by decide)).2.2.2 (by decide)

/-- Claim C8, counterexample to the claim as stated: a page whose first
markdown container holds 101 characters of whitespace makes stage 1
accept it and return its trimmed — empty — text, so `extractAnswer`
returns the empty string even though the body-text fallback (stage 3)
would have yielded a line. -/
theorem extract_whitespace_cex :
    extractAnswer cexPage = ""
    ∧ stage3 cexPage = some cexBodyLine
    ∧ cexBodyLine ≠ "" := by
  refine ⟨by decide, by decide, by decide⟩

/-- Claim C8, amended: the extractor returns the empty string only if
every fallback stage it reaches yields either nothing or text whose
trimmed form is empty (an accepted all-whitespace container
short-circuits the later fallbacks); whenever extraction is empty the
facade substitutes the placeholder answer and still returns success. -/
theorem extract_empty_fallthrough (p : ExtractPage) (s : Session) (env : Env)
    (q : String) (mode : Option String) :
    (extractAnswer p = "" →
      (stage1 p = none ∨ stage1 p = some "") ∧
      (stage1 p = none → (stage2 p = none ∨ stage2 p = some "")) ∧
      (stage1 p = none → stage2 p = none →
        (stage3 p = none ∨ stage3 p = some "")))
    ∧ (env.throwAt = none → (findSearchInput env.inputDom).isSome = true →
       extractAnswer env.extractPage = "" →
       ∃ st2 resp shots,
         search (some s) env q mode = Except.ok (st2, resp, shots) ∧
         resp.success = true ∧ resp.answer = some placeholderAnswer) := by
  constructor
  · intro h
    rcases h1 : stage1 p with _ | t1
    · rcases h2 : stage2 p with _ | t2
      · rcases h3 : stage3 p with _ | t3
        · simp
        · have he := extractAnswer_stage3 p t3 h1 h2 h3
          rw [he] at h
          subst h
          simp
      · have he := extractAnswer_stage2 p t2 h1 h2
        rw [he] at h
        subst h
        simp
    · have he := extractAnswer_stage1 p t1 h1
      rw [he] at h
      subst h
      simp
  · intro hth hin hext
    have hbody := searchBody_success env q mode hth hin
    refine ⟨some s, (searchBody env q mode).1, (searchBody env q mode).2,
      rfl, ?_, ?_⟩
    · rw [hbody]
    · rw [hbody]
      simp [hext]

/-- Witness for C8 (amended) at a page with no extractable content: the
hypotheses hold and the facade returns the placeholder success. -/
theorem extract_empty_fallthrough_witness :
    ((stage1 emptyPage = none ∨ stage1 emptyPage = some "") ∧
      (stage1 emptyPage = none →
        (stage2 emptyPage = none ∨ stage2 emptyPage = some "")) ∧
      (stage1 emptyPage = none → stage2 emptyPage = none →
        (stage3 emptyPage = none ∨ stage3 emptyPage = some "")))
    ∧ (∃ st2 resp shots,
        search (some sessionW) envEmptyAnswer "q" none
          = Except.ok (st2, resp, shots) ∧
        resp.success = true ∧ resp.answer = some placeholderAnswer) := by
  constructor
  · exact (extract_empty_fallthrough emptyPage sessionW envEmptyAnswer
      "q" none).1 (by decide)
  · exact (extract_empty_fallthrough emptyPage sessionW envEmptyAnswer
      "q" none).2 rfl rfl (by decide)

/-- Claim C9: the HTTP `POST /search` handler forwards the request's
`mode` field to the automation layer verbatim and unvalidated for every
request with a present, non-empty `query`; only a missing or empty
`query` is rejected with status 400, before any browser interaction. -/
theorem http_search_forwards_mode (req : HttpSearchReq) (q : String) :
    (req.query = some q → q ≠ "" →
      postSearch req = SearchRoute.forwarded q req.mode)
    ∧ ((req.query = none ∨ req.query = some "") →
      postSearch req = SearchRoute.rejected 400 "Query is required")
    ∧ (∀ status msg, postSearch req = SearchRoute.rejected status msg →
      req.query = none ∨ req.query = some "") := by
  refine ⟨?_, ?_, ?_⟩
  · intro hq hne
    simp [postSearch, hq, hne]
  · intro h
    rcases h with h | h <;> simp [postSearch, h]
  · intro status msg h
    cases hqq : req.query with
    | none => exact Or.inl rfl
    | some q2 =>
        by_cases hq2 : q2 = ""
        · subst hq2
          exact Or.inr rfl
        · simp [postSearch, hqq, hq2] at h

/-- Witness for C9: an out-of-enumeration mode string is forwarded
untouched, and an empty query is rejected with 400. -/
theorem http_search_forwards_mode_witness :
    postSearch ⟨some "hello", some "bogus-mode"⟩
      = SearchRoute.forwarded "hello" (some "bogus-mode")
    ∧ postSearch ⟨some "", some "bogus-mode"⟩
      = SearchRoute.rejected 400 "Query is required" := by
  constructor
  · exact (http_search_forwards_mode ⟨some "hello", some "bogus-mode"⟩
      "hello").1 rfl (by decide)
  · exact (http_search_forwards_mode ⟨some "", some "bogus-mode"⟩
      "").2.1 (Or.inr rfl)

/-- Claim C10: for every non-empty query without a focus value, the
`perplexity_pro_search` handler invokes the underlying search with the
query exactly as given, still in `deep` mode. -/
theorem pro_search_no_focus_verbatim (q : String) (_hq : q ≠ "") :
    proSearchInvocation q none = (q, "deep") := rfl

/-- Witness for C10 at the query `quantum computing`. -/
theorem pro_search_no_focus_verbatim_witness :
    proSearchInvocation "quantum computing" none
      = ("quantum computing", "deep") :=
  pro_search_no_focus_verbatim "quantum computing" (by decide)

end Perplexity
